import Mathlib

set_option linter.unusedVariables false
set_option maxRecDepth 100000

/-! Shallow embedding of the DevSolves AI chat pipeline: the versioned system
prompts and the context manager (message truncation, trimming and system-prompt
injection), the user-input validator, the per-user admission controller
(message-rate window, daily token quota, concurrency cap), the streaming relay
line-processing loop of the OpenAI service, and the control flow of the two
chat route handlers.  JavaScript strings are modelled as Lean strings
(sequences of characters), JavaScript numbers as Nat or Int as appropriate,
and Map or undefined-able values as functions or Option. -/

/-- Message roles, from the Message model: role is one of system, user,
assistant. -/
inductive MessageRole where
  | system
  | user
  | assistant
  deriving DecidableEq, Repr

/-- ChatMessage from the context manager: a role and a content string. -/
structure ChatMessage where
  role : MessageRole
  content : String
  deriving DecidableEq, Repr

/-- Content of system prompt version 1.0.0 (systemPrompt module).  The first
line of the template literal ends with a space before the newline, exactly as
in the source. -/
def SYSTEM_PROMPT_CONTENT_1_0_0 : String :=
  "You are a professional AI assistant. \nBe accurate, concise, safe, and helpful.\nAsk clarifying questions when required.\nNever hallucinate information.\nIf you don\x27t know something, say so clearly.\nFormat your responses using Markdown when appropriate.\nFor code, always specify the programming language."

/-- Content of system prompt version 1.1.0 (systemPrompt module). -/
def SYSTEM_PROMPT_CONTENT_1_1_0 : String :=
  "You are DevSolve AI, a professional coding assistant.\nYour primary focus is helping developers with programming questions, debugging, and best practices.\n\nGuidelines:\n- Be accurate and concise in your responses\n- Ask clarifying questions when the request is ambiguous\n- Never make up information - if unsure, say so\n- Use Markdown formatting for better readability\n- Always specify the programming language in code blocks\n- Provide explanations alongside code when helpful\n- Consider edge cases and error handling\n- Suggest modern best practices when relevant"

/-- CURRENT_PROMPT_VERSION from the systemPrompt module. -/
def CURRENT_PROMPT_VERSION : String := "1.1.0"

/-- Lookup in the SYSTEM_PROMPTS record, restricted to the content field (the
only field the context manager consumes). -/
def SYSTEM_PROMPTS_content (v : String) : Option String :=
  if v = "1.0.0" then some SYSTEM_PROMPT_CONTENT_1_0_0
  else if v = "1.1.0" then some SYSTEM_PROMPT_CONTENT_1_1_0
  else none

/-- getSystemPromptContent: the requested version, with the JavaScript
falsy-default (empty string or undefined falls back to the current version)
and unknown versions falling back to the current version. -/
def getSystemPromptContent (version : String) : String :=
  let v := if version = "" then CURRENT_PROMPT_VERSION else version
  match SYSTEM_PROMPTS_content v with
  | some c => c
  | none => SYSTEM_PROMPT_CONTENT_1_1_0

/-- MAX_CONTEXT_MESSAGES from the context manager.  Modelled as Int because
buildContext callers may pass any number, including zero or negative. -/
def MAX_CONTEXT_MESSAGES : Int := 15

/-- MAX_MESSAGE_CHARS from the context manager. -/
def MAX_MESSAGE_CHARS : Nat := 32000

/-- MAX_CONTEXT_CHARS from the context manager. -/
def MAX_CONTEXT_CHARS : Int := 80000

/-- CHARS_PER_TOKEN from the context manager. -/
def CHARS_PER_TOKEN : Nat := 4

/-- estimateTokens: ceil of length divided by CHARS_PER_TOKEN. -/
def estimateTokens (text : String) : Nat :=
  (text.length + CHARS_PER_TOKEN - 1) / CHARS_PER_TOKEN

/-- estimateMessagesTokens: sum of per-message estimates plus 4 per message. -/
def estimateMessagesTokens (messages : List ChatMessage) : Nat :=
  messages.foldl (fun sum m => sum + estimateTokens m.content) 0
    + messages.length * 4

/-- The fixed string appended by truncateMessage (two newlines followed by the
bracketed marker). -/
def TRUNCATION_MARKER : String := "\n\n[Message truncated due to length...]"

/-- Model of JavaScript content.substring(0, n): the first n characters (n is
clamped to the string length; a negative bound is clamped to zero, which Nat
subtraction reproduces at the call site). -/
def jsTake (s : String) (n : Nat) : String := String.mk (s.data.take n)

/-- truncateMessage: contents at or under the limit are returned unchanged;
longer contents keep a prefix of maxChars minus 100 characters and get the
fixed marker appended. -/
def truncateMessage (content : String) (maxChars : Nat) : String :=
  if content.length ≤ maxChars then content
  else jsTake content (maxChars - 100) ++ TRUNCATION_MARKER

/-- Model of JavaScript arr.slice(start) (one-argument slice): a negative
start counts from the end, both directions clamped to the array bounds.
buildContext calls it as slice(-maxMessages). -/
def jsSliceFrom {α : Type} (l : List α) (start : Int) : List α :=
  if start < 0 then l.drop (l.length - min (-start).toNat l.length)
  else l.drop (min start.toNat l.length)

/-- The filter-and-truncate step of buildContext: drop embedded system-role
messages, then truncate each content with the default per-message limit. -/
def userAssistantMessagesOf (messages : List ChatMessage) : List ChatMessage :=
  (messages.filter (fun m => m.role != MessageRole.system)).map
    (fun m => ⟨m.role, truncateMessage m.content MAX_MESSAGE_CHARS⟩)

/-- The reduce over message content lengths used to compute currentChars. -/
def contentLengthSum (l : List ChatMessage) : Int :=
  l.foldl (fun sum m => sum + (m.content.length : Int)) 0

/-- The while loop of buildContext: while currentChars exceeds maxChars and
more than one message remains, shift the oldest message, subtract its length
from the running total and bump the trimmed counter.  Returns the remaining
messages, the final running total and the final counter. -/
def dropWhileOverBudget :
    List ChatMessage → Int → Int → Nat → List ChatMessage × Int × Nat
  | [], currentChars, _, trimmedCount => ([], currentChars, trimmedCount)
  | [m], currentChars, _, trimmedCount => ([m], currentChars, trimmedCount)
  | m :: m2 :: rest, currentChars, maxChars, trimmedCount =>
    if currentChars > maxChars then
      dropWhileOverBudget (m2 :: rest) (currentChars - (m.content.length : Int))
        maxChars (trimmedCount + 1)
    else (m :: m2 :: rest, currentChars, trimmedCount)

/-- ContextOptions after destructuring defaults (absent fields already
replaced by the defaults 15, 80000, CURRENT_PROMPT_VERSION, true). -/
structure ContextOptions where
  maxMessages : Int
  maxChars : Int
  systemPromptVersion : String
  includeSystemPrompt : Bool
  deriving DecidableEq, Repr

/-- ContextResult returned by buildContext. -/
structure ContextResult where
  messages : List ChatMessage
  systemPromptVersion : String
  estimatedTokens : Nat
  trimmedCount : Nat
  deriving DecidableEq, Repr

/-- The fresh system message buildContext injects, resolved from the
requested prompt version. -/
def systemMessageOf (options : ContextOptions) : ChatMessage :=
  ⟨MessageRole.system, getSystemPromptContent options.systemPromptVersion⟩

/-- The slice step of buildContext: keep the last maxMessages entries via
slice(-maxMessages). -/
def trimmedMessagesOf (messages : List ChatMessage) (options : ContextOptions) :
    List ChatMessage :=
  jsSliceFrom (userAssistantMessagesOf messages) (-options.maxMessages)

/-- The drop counter after the slice step: max of zero and the number of
messages beyond maxMessages. -/
def sliceTrimmedCount (messages : List ChatMessage) (options : ContextOptions) :
    Nat :=
  (Int.ofNat (userAssistantMessagesOf messages).length - options.maxMessages).toNat

/-- The running character total before the budget loop: the system prompt
length when included, plus the content lengths of the sliced messages. -/
def initialCharsOf (messages : List ChatMessage) (options : ContextOptions) :
    Int :=
  (if options.includeSystemPrompt
    then ((getSystemPromptContent options.systemPromptVersion).length : Int)
    else 0)
    + contentLengthSum (trimmedMessagesOf messages options)

/-- The budget loop of buildContext applied to the sliced messages. -/
def budgetResultOf (messages : List ChatMessage) (options : ContextOptions) :
    List ChatMessage × Int × Nat :=
  dropWhileOverBudget (trimmedMessagesOf messages options)
    (initialCharsOf messages options) options.maxChars
    (sliceTrimmedCount messages options)

/-- The history messages buildContext keeps after both trimming steps. -/
def keptMessagesOf (messages : List ChatMessage) (options : ContextOptions) :
    List ChatMessage :=
  (budgetResultOf messages options).1

/-- buildContext: filter embedded system messages and truncate each content,
keep the last maxMessages entries via slice(-maxMessages), then drop oldest
remaining messages while the running character total (system prompt included
when requested) exceeds maxChars, and finally prepend the fresh system
message. -/
def buildContext (messages : List ChatMessage) (options : ContextOptions) :
    ContextResult :=
  let finalMessages :=
    if options.includeSystemPrompt
      then systemMessageOf options :: keptMessagesOf messages options
      else keptMessagesOf messages options
  ⟨finalMessages, options.systemPromptVersion,
    estimateMessagesTokens finalMessages, (budgetResultOf messages options).2.2⟩

/-- The options the chat routes pass to buildContext: only
systemPromptVersion is set, every other field keeps its default. -/
def defaultContextOptions (systemPromptVersion : String) : ContextOptions :=
  ⟨MAX_CONTEXT_MESSAGES, MAX_CONTEXT_CHARS, systemPromptVersion, true⟩

/-- The history part of a context result: its messages without system-role
entries. -/
def historyOf (r : ContextResult) : List ChatMessage :=
  r.messages.filter (fun m => m.role != MessageRole.system)

/-- ASCII whitespace recognised by the model of JavaScript trim. -/
def jsIsWhitespace (c : Char) : Bool :=
  c == ' ' || c == '\t' || c == '\n' || c == '\r'

/-- Model of JavaScript String.prototype.trim: strip whitespace from both
ends. -/
def jsTrim (s : String) : String :=
  String.mk (((s.data.dropWhile jsIsWhitespace).reverse.dropWhile
    jsIsWhitespace).reverse)

/-- Result record of validateUserInput. -/
structure ValidationResult where
  valid : Bool
  error : Option String
  deriving DecidableEq, Repr

/-- validateUserInput: empty content, whitespace-only content, or trimmed
content over MAX_MESSAGE_CHARS is invalid.  The suspicious-pattern scan in the
source only writes a console warning and never changes the returned value, so
it does not appear in the value-level embedding. -/
def validateUserInput (content : String) : ValidationResult :=
  if content = "" then ⟨false, some "Message content is required"⟩
  else if (jsTrim content).length = 0 then ⟨false, some "Message cannot be empty"⟩
  else if (jsTrim content).length > MAX_MESSAGE_CHARS then
    ⟨false, some "Message too long. Maximum 32000 characters allowed."⟩
  else ⟨true, none⟩

/-- Tier configuration record (AIRateLimitConfig in the ai rate limiter). -/
structure AIRateLimitConfig where
  messagesPerHour : Nat
  dailyTokenLimit : Nat
  maxTokensPerRequest : Nat
  maxConcurrentRequests : Nat
  deriving DecidableEq, Repr

/-- The user tier of AI_RATE_LIMITS. -/
def AI_RATE_LIMITS_user : AIRateLimitConfig := ⟨50, 100000, 4096, 2⟩

/-- The moderator tier of AI_RATE_LIMITS. -/
def AI_RATE_LIMITS_moderator : AIRateLimitConfig := ⟨100, 200000, 8192, 3⟩

/-- The admin tier of AI_RATE_LIMITS. -/
def AI_RATE_LIMITS_admin : AIRateLimitConfig := ⟨500, 1000000, 16384, 5⟩

/-- Lookup in the AI_RATE_LIMITS record. -/
def AI_RATE_LIMITS_lookup (role : String) : Option AIRateLimitConfig :=
  if role = "user" then some AI_RATE_LIMITS_user
  else if role = "moderator" then some AI_RATE_LIMITS_moderator
  else if role = "admin" then some AI_RATE_LIMITS_admin
  else none

/-- MESSAGE_RATE_LIMIT windowMs: one hour in milliseconds. -/
def MESSAGE_RATE_LIMIT_windowMs : Nat := 3600000

/-- Result of a sliding-window check. -/
structure RateLimitCheckResult where
  allowed : Bool
  remaining : Nat
  resetIn : Nat
  deriving DecidableEq, Repr

/-- Modelled from the spec: getRateLimitKey of the auth rateLimit module,
which is not part of the repository snapshot (only its caller is); the window
is keyed by the pair of user id and endpoint name. -/
def getRateLimitKey (userId endpoint : String) : String :=
  userId ++ ":" ++ endpoint

/-- Modelled from the spec: checkRateLimit of the auth rateLimit module, which
is not part of the repository snapshot (only its caller is).  Per the spec, a
sliding window of length windowMs counts the requests recorded within the
trailing window; when the in-window count has reached maxRequests the check is
denied, with the time until the oldest in-window request expires reported as
resetIn; an allowed check records the request and reports the remaining
budget.  The store maps keys to recorded request timestamps (milliseconds). -/
def checkRateLimit (now : Nat) (key : String) (windowMs maxRequests : Nat)
    (store : String → List Nat) :
    RateLimitCheckResult × (String → List Nat) :=
  let active := (store key).filter (fun t => decide (now < t + windowMs))
  if maxRequests ≤ active.length then
    let oldest := active.foldr (fun t acc => min t acc) now
    (⟨false, 0, oldest + windowMs - now⟩,
     fun k => if k = key then active else store k)
  else
    (⟨true, maxRequests - (active.length + 1), windowMs⟩,
     fun k => if k = key then active ++ [now] else store k)

/-- The process-wide mutable state of the ai rate limiter: the sliding-window
store and the per-user concurrent request counters (a map read with a zero
default). -/
structure AIRateLimitState where
  rateLimitStore : String → List Nat
  concurrentRequests : String → Nat

/-- AIRateLimitResult returned by checkAIRateLimit; remaining holds the pair
of remaining messages and remaining tokens when the source sets it. -/
structure AIRateLimitResult where
  allowed : Bool
  reason : Option String
  remaining : Option (Nat × Nat)
  retryAfter : Option Nat
  deriving DecidableEq, Repr

/-- checkAIRateLimit: resolve the tier by role (unknown roles fall back to the
user tier), then check the message-rate window, the daily token quota and the
concurrency cap in order, short-circuiting on the first failure. -/
def checkAIRateLimit (now : Nat) (userId userRole : String)
    (currentDailyTokens : Nat) (st : AIRateLimitState) :
    AIRateLimitResult × AIRateLimitState :=
  let limits := (AI_RATE_LIMITS_lookup userRole).getD AI_RATE_LIMITS_user
  let rateLimitKey := getRateLimitKey userId "ai-chat"
  let rl := checkRateLimit now rateLimitKey MESSAGE_RATE_LIMIT_windowMs
    limits.messagesPerHour st.rateLimitStore
  let st2 : AIRateLimitState := ⟨rl.2, st.concurrentRequests⟩
  if rl.1.allowed = false then
    (⟨false,
      some "Message rate limit exceeded. Please wait before sending more messages.",
      none, some ((rl.1.resetIn + 999) / 1000)⟩, st2)
  else if limits.dailyTokenLimit ≤ currentDailyTokens then
    (⟨false, some "Daily token limit exceeded. Your limit resets at midnight.",
      some (rl.1.remaining, 0), none⟩, st2)
  else if limits.maxConcurrentRequests ≤ st.concurrentRequests userId then
    (⟨false,
      some "Too many concurrent requests. Please wait for current requests to complete.",
      none, none⟩, st2)
  else
    (⟨true, none,
      some (rl.1.remaining, limits.dailyTokenLimit - currentDailyTokens),
      none⟩, st2)

/-- startRequest: increment the concurrent request counter of the user. -/
def startRequest (userId : String) (st : AIRateLimitState) : AIRateLimitState :=
  ⟨st.rateLimitStore,
   fun u => if u = userId then st.concurrentRequests u + 1
            else st.concurrentRequests u⟩

/-- endRequest: decrement the concurrent request counter of the user, but only
when it is positive. -/
def endRequest (userId : String) (st : AIRateLimitState) : AIRateLimitState :=
  ⟨st.rateLimitStore,
   fun u => if u = userId then
              (if 0 < st.concurrentRequests u then st.concurrentRequests u - 1
               else st.concurrentRequests u)
            else st.concurrentRequests u⟩

/-- TokenUsage as emitted by the streaming relay. -/
structure TokenUsage where
  inputTokens : Nat
  outputTokens : Nat
  totalTokens : Nat
  deriving DecidableEq, Repr

/-- The fields of an upstream usage object that the relay reads (it reads
prompt_tokens and completion_tokens with a zero default; total_tokens is
carried by the provider but never read by the streaming relay). -/
structure UpstreamUsage where
  prompt_tokens : Option Nat
  completion_tokens : Option Nat
  total_tokens : Option Nat
  deriving DecidableEq, Repr

/-- A parsed upstream data frame: the optional delta content of the first
choice and the optional usage object. -/
structure UpstreamFrame where
  deltaContent : Option String
  usage : Option UpstreamUsage
  deriving DecidableEq, Repr

/-- One upstream line after the buffer split, as the relay loop classifies it:
an empty line, the literal termination sentinel, a data line with parseable
JSON, a data line with malformed JSON, or a line not starting with the data
prefix. -/
inductive UpstreamLine where
  | blank
  | doneSentinel
  | dataFrame (frame : UpstreamFrame)
  | dataMalformed
  | nonData
  deriving DecidableEq, Repr

/-- The tagged events the relay emits to its consumer. -/
inductive StreamEvent where
  | token (text : String)
  | done (content : String) (usage : TokenUsage)
  | error (message : String)
  deriving DecidableEq, Repr

/-- The Token events one data frame makes the relay emit: exactly one when
the delta content is present and non-empty (the source tests JavaScript
truthiness of delta.content), none otherwise. -/
def frameEvents (f : UpstreamFrame) : List StreamEvent :=
  match f.deltaContent with
  | some c => if c = "" then [] else [StreamEvent.token c]
  | none => []

/-- How one data frame extends the running content buffer. -/
def frameContent (f : UpstreamFrame) (fullContent : String) : String :=
  match f.deltaContent with
  | some c => if c = "" then fullContent else fullContent ++ c
  | none => fullContent

/-- How one data frame updates the captured usage counters: a frame carrying
usage overwrites both with prompt_tokens and completion_tokens (zero
defaults); other frames leave them unchanged. -/
def frameToks (f : UpstreamFrame) (inputTokens outputTokens : Nat) : Nat × Nat :=
  match f.usage with
  | some u => (u.prompt_tokens.getD 0, u.completion_tokens.getD 0)
  | none => (inputTokens, outputTokens)

/-- The read loop of createStreamingCompletion over the classified upstream
lines: blank lines, the sentinel, non-data lines and malformed JSON are
skipped; a frame with non-empty delta content appends to the running content
and emits a Token event; a frame carrying usage overwrites the captured
prompt and completion counters.  Returns the emitted events with the final
content and counters. -/
def relayLoop :
    List UpstreamLine → String → Nat → Nat →
    List StreamEvent × String × Nat × Nat
  | [], fullContent, inputTokens, outputTokens =>
    ([], fullContent, inputTokens, outputTokens)
  | line :: rest, fullContent, inputTokens, outputTokens =>
    match line with
    | UpstreamLine.dataFrame f =>
      let cont := relayLoop rest (frameContent f fullContent)
        (frameToks f inputTokens outputTokens).1
        (frameToks f inputTokens outputTokens).2
      (frameEvents f ++ cont.1, cont.2)
    | _ => relayLoop rest fullContent inputTokens outputTokens

/-- The events createStreamingCompletion writes to its output stream: on a
non-success upstream response a single Error event with the mapped message; on
a success response the Token events of the read loop followed by a single Done
event carrying the aggregated content and the usage whose total is the sum of
the captured counters. -/
def createStreamingCompletionEvents (fetchOk : Bool) (fetchErrorMessage : String)
    (lines : List UpstreamLine) : List StreamEvent :=
  if fetchOk then
    (relayLoop lines "" 0 0).1
      ++ [StreamEvent.done (relayLoop lines "" 0 0).2.1
            ⟨(relayLoop lines "" 0 0).2.2.1, (relayLoop lines "" 0 0).2.2.2,
             (relayLoop lines "" 0 0).2.2.1 + (relayLoop lines "" 0 0).2.2.2⟩]
  else [StreamEvent.error fetchErrorMessage]

/-- The last prompt and completion counters reported by the upstream lines
(zero when never reported), read exactly as the relay reads them. -/
def lastReportedUsage (lines : List UpstreamLine) : Nat × Nat :=
  lines.foldl (fun acc line =>
    match line with
    | UpstreamLine.dataFrame f => frameToks f acc.1 acc.2
    | _ => acc) (0, 0)

/-- REQUEST_TIMEOUT of the OpenAI service, in milliseconds. -/
def REQUEST_TIMEOUT : Nat := 60000

/-- The possible abort sources a fetch call could listen to. -/
inductive FetchSignalSource where
  | internalController
  | callerSupplied
  deriving DecidableEq, Repr

/-- The signal createStreamingCompletion passes to fetch: the source tests
whether a caller-supplied signal was provided, but both branches of the
ternary pass the internal controller signal. -/
def combinedSignalSource (callerSignal : Option Unit) : FetchSignalSource :=
  match callerSignal with
  | some _ => FetchSignalSource.internalController
  | none => FetchSignalSource.internalController

/-- The internal AbortController is aborted by the 60-second timeout callback
and by the ReadableStream cancel callback. -/
def internalControllerAborted (timeoutFired cancelCalled : Bool) : Bool :=
  timeoutFired || cancelCalled

/-- Whether a given abort source has fired, given which cancellation events
occurred. -/
def signalSourceFired (source : FetchSignalSource)
    (callerSignalFired timeoutFired cancelCalled : Bool) : Bool :=
  match source with
  | FetchSignalSource.internalController =>
    internalControllerAborted timeoutFired cancelCalled
  | FetchSignalSource.callerSupplied => callerSignalFired

/-- Whether the upstream HTTP call of createStreamingCompletion gets aborted,
given whether a caller signal was supplied and which cancellation events
occurred: the fetch only ever listens to the signal combinedSignalSource
selects. -/
def upstreamCallAborted (callerSignal : Option Unit)
    (callerSignalFired timeoutFired cancelCalled : Bool) : Bool :=
  signalSourceFired (combinedSignalSource callerSignal)
    callerSignalFired timeoutFired cancelCalled

/-- The observable environment of one invocation of the chat messages route
handler: the outcome of each awaited collaborator call (a throws flag models
the await raising) and the inputs the handler reads. -/
structure ChatRouteEnv where
  authThrows : Bool
  auth : Option (String × String)
  jsonThrows : Bool
  content : String
  conversationId : String
  dbConnectThrows : Bool
  userFetchThrows : Bool
  userFound : Bool
  needsDailyReset : Bool
  resetSaveThrows : Bool
  dailyTokensUsed : Nat
  rlState : AIRateLimitState
  now : Nat
  convFetchThrows : Bool
  convFound : Bool
  msgFetchThrows : Bool
  userMsgCreateThrows : Bool
  streamCreateThrows : Bool

/-- What one route invocation did: the HTTP status of the returned response
and how many times startRequest and endRequest ran. -/
structure RouteTrace where
  status : Nat
  startRequestCalls : Nat
  endRequestCalls : Nat
  deriving DecidableEq, Repr

/-- Control flow of the POST handler of the chat messages route: the userId
local starts null and is assigned right after authentication succeeds; the try
body returns early on validation, admission and lookup failures, calls
startRequest once just before creating the stream, and any exception lands in
the catch arm with a 500; the finally block calls endRequest exactly when
userId was assigned.  Persistence in the onComplete callback runs after the
handler returned, wrapped in its own try so its failure reaches nothing. -/
def chatMessagesPOST (env : ChatRouteEnv) : RouteTrace :=
  if env.authThrows then ⟨500, 0, 0⟩
  else
    match env.auth with
    | none => ⟨401, 0, 0⟩
    | some (userId, role) =>
      let body : Nat × Nat :=
        if env.jsonThrows then (500, 0)
        else if (validateUserInput env.content).valid = false then (400, 0)
        else if env.conversationId = "" then (400, 0)
        else if env.dbConnectThrows then (500, 0)
        else if env.userFetchThrows then (500, 0)
        else if env.userFound = false then (404, 0)
        else if env.needsDailyReset && env.resetSaveThrows then (500, 0)
        else
          let tokens := if env.needsDailyReset then 0 else env.dailyTokensUsed
          let rl := (checkAIRateLimit env.now userId role tokens env.rlState).1
          if rl.allowed = false then (429, 0)
          else if env.convFetchThrows then (500, 0)
          else if env.convFound = false then (404, 0)
          else if env.msgFetchThrows then (500, 0)
          else if env.userMsgCreateThrows then (500, 0)
          else if env.streamCreateThrows then (500, 1)
          else (200, 1)
      ⟨body.1, body.2, 1⟩

/-- The observable environment of one invocation of the regenerate route
handler. -/
structure RegenRouteEnv where
  authThrows : Bool
  auth : Option (String × String)
  jsonThrows : Bool
  conversationId : String
  dbConnectThrows : Bool
  userFetchThrows : Bool
  userFound : Bool
  needsDailyReset : Bool
  resetSaveThrows : Bool
  dailyTokensUsed : Nat
  rlState : AIRateLimitState
  now : Nat
  convFetchThrows : Bool
  convFound : Bool
  lastAssistantFetchThrows : Bool
  hasLastAssistant : Bool
  deleteThrows : Bool
  msgFetchThrows : Bool
  remainingMessages : Nat
  streamCreateThrows : Bool

/-- Control flow of the POST handler of the regenerate route, with the same
try, catch and finally shape as the messages route: delete the last assistant
message when one exists, refuse with 400 when no messages remain, call
startRequest once just before creating the stream, and run endRequest in the
finally block exactly when userId was assigned. -/
def regeneratePOST (env : RegenRouteEnv) : RouteTrace :=
  if env.authThrows then ⟨500, 0, 0⟩
  else
    match env.auth with
    | none => ⟨401, 0, 0⟩
    | some (userId, role) =>
      let body : Nat × Nat :=
        if env.jsonThrows then (500, 0)
        else if env.conversationId = "" then (400, 0)
        else if env.dbConnectThrows then (500, 0)
        else if env.userFetchThrows then (500, 0)
        else if env.userFound = false then (404, 0)
        else if env.needsDailyReset && env.resetSaveThrows then (500, 0)
        else
          let tokens := if env.needsDailyReset then 0 else env.dailyTokensUsed
          let rl := (checkAIRateLimit env.now userId role tokens env.rlState).1
          if rl.allowed = false then (429, 0)
          else if env.convFetchThrows then (500, 0)
          else if env.convFound = false then (404, 0)
          else if env.lastAssistantFetchThrows then (500, 0)
          else if env.hasLastAssistant && env.deleteThrows then (500, 0)
          else if env.msgFetchThrows then (500, 0)
          else if env.remainingMessages = 0 then (400, 0)
          else if env.streamCreateThrows then (500, 1)
          else (200, 1)
      ⟨body.1, body.2, 1⟩

/-- Unfolding lemma: contentLengthSum over a cons. -/
theorem contentLengthSum_foldl (l : List ChatMessage) (a : Int) :
    List.foldl (fun sum m => sum + (m.content.length : Int)) a l
      = a + contentLengthSum l := by
  induction l generalizing a with
  | nil => simp [contentLengthSum]
  | cons m rest ih =>
    unfold contentLengthSum
    simp only [List.foldl_cons]
    rw [ih, ih (0 + (m.content.length : Int))]
    ring

theorem contentLengthSum_cons (m : ChatMessage) (rest : List ChatMessage) :
    contentLengthSum (m :: rest) = (m.content.length : Int) + contentLengthSum rest := by
  conv_lhs => unfold contentLengthSum
  simp only [List.foldl_cons]
  rw [contentLengthSum_foldl]
  ring

theorem contentLengthSum_nil : contentLengthSum [] = 0 := rfl

theorem contentLengthSum_nonneg (l : List ChatMessage) : 0 ≤ contentLengthSum l := by
  induction l with
  | nil => simp [contentLengthSum_nil]
  | cons m rest ih =>
    rw [contentLengthSum_cons]
    have : (0:Int) ≤ (m.content.length : Int) := Int.ofNat_nonneg _
    omega

theorem dropWhileOverBudget_suffix (l : List ChatMessage) (c mc : Int) (t : Nat) :
    List.IsSuffix (dropWhileOverBudget l c mc t).1 l := by
  induction l generalizing c t with
  | nil => simp [dropWhileOverBudget]
  | cons m rest ih =>
    cases rest with
    | nil => simp [dropWhileOverBudget]
    | cons m2 rest2 =>
      by_cases h : c > mc
      · simp only [dropWhileOverBudget, if_pos h]
        exact (ih _ _).trans (List.suffix_cons m (m2 :: rest2))
      · simp only [dropWhileOverBudget, if_neg h]
        exact List.suffix_refl _

theorem dropWhileOverBudget_ne_nil (l : List ChatMessage) (c mc : Int) (t : Nat)
    (h : l ≠ []) : (dropWhileOverBudget l c mc t).1 ≠ [] := by
  induction l generalizing c t with
  | nil => exact absurd rfl h
  | cons m rest ih =>
    cases rest with
    | nil => simp [dropWhileOverBudget]
    | cons m2 rest2 =>
      by_cases hgt : c > mc
      · simp only [dropWhileOverBudget, if_pos hgt]
        exact ih _ _ (by simp)
      · simp only [dropWhileOverBudget, if_neg hgt]
        simp

theorem dropWhileOverBudget_chars (l : List ChatMessage) (base c mc : Int) (t : Nat)
    (h : c = base + contentLengthSum l) :
    (dropWhileOverBudget l c mc t).2.1
      = base + contentLengthSum (dropWhileOverBudget l c mc t).1 := by
  induction l generalizing c t with
  | nil => simpa [dropWhileOverBudget] using h
  | cons m rest ih =>
    cases rest with
    | nil => simpa [dropWhileOverBudget] using h
    | cons m2 rest2 =>
      by_cases hgt : c > mc
      · simp only [dropWhileOverBudget, if_pos hgt]
        refine ih _ _ ?_
        rw [contentLengthSum_cons] at h
        omega
      · simpa [dropWhileOverBudget, if_neg hgt] using h

theorem dropWhileOverBudget_exit (l : List ChatMessage) (c mc : Int) (t : Nat) :
    (dropWhileOverBudget l c mc t).1.length ≤ 1
      ∨ (dropWhileOverBudget l c mc t).2.1 ≤ mc := by
  induction l generalizing c t with
  | nil => left; simp [dropWhileOverBudget]
  | cons m rest ih =>
    cases rest with
    | nil => left; simp [dropWhileOverBudget]
    | cons m2 rest2 =>
      by_cases hgt : c > mc
      · simp only [dropWhileOverBudget, if_pos hgt]
        exact ih _ _
      · right
        simp only [dropWhileOverBudget, if_neg hgt]
        omega

theorem getLastQ_append_right {α : Type} (p s : List α) (h : s ≠ []) :
    (p ++ s).getLast? = s.getLast? := by
  rw [List.getLast?_append]
  cases hs : s.getLast? with
  | none => exact absurd (List.getLast?_eq_none_iff.mp hs) h
  | some a => rfl

theorem isSuffix_getLastQ {α : Type} {s l : List α} (h : List.IsSuffix s l)
    (hs : s ≠ []) : l.getLast? = s.getLast? := by
  obtain ⟨p, hp⟩ := h
  rw [← hp]
  exact getLastQ_append_right p s hs

theorem isSuffix_ne_nil {α : Type} {s l : List α} (h : List.IsSuffix s l)
    (hs : s ≠ []) : l ≠ [] := by
  obtain ⟨p, hp⟩ := h
  intro hl
  rw [hl] at hp
  rcases List.append_eq_nil.mp hp with ⟨-, h2⟩
  exact hs h2

theorem jsSliceFrom_suffix {α : Type} (l : List α) (s : Int) :
    List.IsSuffix (jsSliceFrom l s) l := by
  unfold jsSliceFrom
  split
  · exact List.drop_suffix _ _
  · exact List.drop_suffix _ _

theorem jsSliceFrom_neg_length_le {α : Type} (l : List α) (m : Int) (h : 1 ≤ m) :
    (jsSliceFrom l (-m)).length ≤ m.toNat := by
  unfold jsSliceFrom
  rw [if_pos (by omega : -m < 0), neg_neg, List.length_drop]
  have h1 : min m.toNat l.length ≤ m.toNat := Nat.min_le_left _ _
  have h2 : min m.toNat l.length ≤ l.length := Nat.min_le_right _ _
  omega

theorem jsSliceFrom_neg_ne_nil {α : Type} (l : List α) (m : Int) (h : 1 ≤ m)
    (hl : l ≠ []) : jsSliceFrom l (-m) ≠ [] := by
  unfold jsSliceFrom
  rw [if_pos (by omega : -m < 0), neg_neg]
  intro hc
  have hle := List.drop_eq_nil_iff.mp hc
  have hlen : 1 ≤ l.length := by
    cases l with
    | nil => exact absurd rfl hl
    | cons a as => simp
  have hm1 : 1 ≤ m.toNat := by omega
  have h2 : min m.toNat l.length ≤ l.length := Nat.min_le_right _ _
  have h3 : 1 ≤ min m.toNat l.length := le_min hm1 hlen
  omega

theorem jsSliceFrom_zero {α : Type} (l : List α) : jsSliceFrom l (-(0:Int)) = l := by
  unfold jsSliceFrom
  rw [neg_zero, if_neg (by omega : ¬ (0:Int) < 0)]
  simp

theorem userAssistant_role_ne (msgs : List ChatMessage) :
    ∀ m ∈ userAssistantMessagesOf msgs, m.role ≠ MessageRole.system := by
  intro m hm
  unfold userAssistantMessagesOf at hm
  rcases List.mem_map.mp hm with ⟨x, hx, rfl⟩
  have hp := List.of_mem_filter hx
  simpa using hp

theorem keptMessagesOf_suffix (msgs : List ChatMessage) (opts : ContextOptions) :
    List.IsSuffix (keptMessagesOf msgs opts) (trimmedMessagesOf msgs opts) :=
  dropWhileOverBudget_suffix _ _ _ _

theorem keptMessagesOf_suffix_ua (msgs : List ChatMessage) (opts : ContextOptions) :
    List.IsSuffix (keptMessagesOf msgs opts) (userAssistantMessagesOf msgs) :=
  (keptMessagesOf_suffix msgs opts).trans (jsSliceFrom_suffix _ _)

theorem keptMessagesOf_role_ne (msgs : List ChatMessage) (opts : ContextOptions) :
    ∀ m ∈ keptMessagesOf msgs opts, m.role ≠ MessageRole.system := by
  intro m hm
  exact userAssistant_role_ne msgs m ((keptMessagesOf_suffix_ua msgs opts).subset hm)

theorem filter_nonSystem_eq_self (l : List ChatMessage)
    (h : ∀ m ∈ l, m.role ≠ MessageRole.system) :
    l.filter (fun m => m.role != MessageRole.system) = l := by
  rw [List.filter_eq_self]
  intro m hm
  simpa using h m hm

theorem historyOf_buildContext (msgs : List ChatMessage) (opts : ContextOptions) :
    historyOf (buildContext msgs opts) = keptMessagesOf msgs opts := by
  unfold historyOf buildContext
  split
  · rw [List.filter_cons_of_neg (by simp [systemMessageOf])]
    exact filter_nonSystem_eq_self _ (keptMessagesOf_role_ne msgs opts)
  · exact filter_nonSystem_eq_self _ (keptMessagesOf_role_ne msgs opts)

theorem string_data_append (s t : String) : (s ++ t).data = s.data ++ t.data := by
  cases s
  cases t
  rfl

theorem string_length_mk (l : List Char) : (String.mk l).length = l.length := rfl

theorem string_length_append (s t : String) :
    (s ++ t).length = s.length + t.length := by
  have h : (s ++ t).data = s.data ++ t.data := string_data_append s t
  show (s ++ t).data.length = s.data.length + t.data.length
  rw [h, List.length_append]

theorem dropWhile_replicate_of_false {α : Type} (p : α → Bool) (a : α) (n : Nat)
    (h : p a = false) : List.dropWhile p (List.replicate n a) = List.replicate n a := by
  induction n with
  | zero => rfl
  | succ k ih =>
    rw [List.replicate_succ, List.dropWhile_cons_of_neg (by simp [h])]

theorem frameEvents_tokens (f : UpstreamFrame) :
    ∀ e ∈ frameEvents f, ∃ t, e = StreamEvent.token t := by
  intro e he
  unfold frameEvents at he
  cases hd : f.deltaContent with
  | none => rw [hd] at he; simp at he
  | some c =>
    rw [hd] at he
    by_cases hc : c = ""
    · simp [hc] at he
    · simp [hc] at he
      exact ⟨c, he⟩

theorem relayLoop_tokens_only (lines : List UpstreamLine) (fc : String) (i o : Nat) :
    ∀ e ∈ (relayLoop lines fc i o).1, ∃ t, e = StreamEvent.token t := by
  induction lines generalizing fc i o with
  | nil => intro e he; simp [relayLoop] at he
  | cons line rest ih =>
    intro e he
    cases line with
    | dataFrame f =>
      simp only [relayLoop] at he
      rcases List.mem_append.mp he with h1 | h2
      · exact frameEvents_tokens f e h1
      · exact ih _ _ _ e h2
    | blank => exact ih _ _ _ e he
    | doneSentinel => exact ih _ _ _ e he
    | dataMalformed => exact ih _ _ _ e he
    | nonData => exact ih _ _ _ e he

theorem relayLoop_usage (lines : List UpstreamLine) (fc : String) (i o : Nat) :
    (relayLoop lines fc i o).2.2
      = lines.foldl (fun acc line =>
          match line with
          | UpstreamLine.dataFrame f => frameToks f acc.1 acc.2
          | _ => acc) (i, o) := by
  induction lines generalizing fc i o with
  | nil => rfl
  | cons line rest ih =>
    cases line with
    | dataFrame f =>
      simp only [relayLoop, List.foldl_cons]
      rw [ih]
    | blank => simp only [relayLoop, List.foldl_cons]; rw [ih]
    | doneSentinel => simp only [relayLoop, List.foldl_cons]; rw [ih]
    | dataMalformed => simp only [relayLoop, List.foldl_cons]; rw [ih]
    | nonData => simp only [relayLoop, List.foldl_cons]; rw [ih]

theorem iterate_startRequest_store (userId : String) (n : Nat) (st : AIRateLimitState) :
    ((startRequest userId)^[n] st).rateLimitStore = st.rateLimitStore := by
  induction n with
  | zero => rfl
  | succ k ih =>
    rw [Function.iterate_succ_apply']
    unfold startRequest
    exact ih

theorem iterate_startRequest_count (userId : String) (n : Nat) (st : AIRateLimitState) :
    ((startRequest userId)^[n] st).concurrentRequests userId
      = st.concurrentRequests userId + n := by
  induction n with
  | zero => rfl
  | succ k ih =>
    rw [Function.iterate_succ_apply']
    show (if userId = userId then
        ((startRequest userId)^[k] st).concurrentRequests userId + 1
      else ((startRequest userId)^[k] st).concurrentRequests userId)
      = st.concurrentRequests userId + (k + 1)
    rw [if_pos rfl, ih]
    omega

/-- Claim C4: for every input to buildContext, including inputs that contain
embedded system-role messages, if includeSystemPrompt is true then the first
element of the returned messages has role system and no other element has
role system. -/
theorem buildContext_system_prompt_injection (msgs : List ChatMessage)
    (opts : ContextOptions) (h : opts.includeSystemPrompt = true) :
    ∃ hd tl, (buildContext msgs opts).messages = hd :: tl
      ∧ hd.role = MessageRole.system
      ∧ ∀ m ∈ tl, m.role ≠ MessageRole.system := by
  refine ⟨systemMessageOf opts, keptMessagesOf msgs opts, ?_, rfl,
    keptMessagesOf_role_ne msgs opts⟩
  show (if opts.includeSystemPrompt
      then systemMessageOf opts :: keptMessagesOf msgs opts
      else keptMessagesOf msgs opts)
    = systemMessageOf opts :: keptMessagesOf msgs opts
  rw [if_pos h]

/-- Witness for C4 at a concrete input that contains an embedded system
message. -/
theorem buildContext_system_prompt_injection_witness :
    (⟨15, 80000, "1.1.0", true⟩ : ContextOptions).includeSystemPrompt = true
    ∧ ∃ hd tl,
        (buildContext [⟨MessageRole.system, "embedded"⟩, ⟨MessageRole.user, "hi"⟩]
          ⟨15, 80000, "1.1.0", true⟩).messages = hd :: tl
        ∧ hd.role = MessageRole.system
        ∧ ∀ m ∈ tl, m.role ≠ MessageRole.system :=
  ⟨rfl, buildContext_system_prompt_injection _ _ rfl⟩

/-- Claim C8: content longer than MAX_MESSAGE_CHARS is truncated to a string
of length exactly MAX_MESSAGE_CHARS minus 100 plus the marker length, ending
with the fixed marker; content at or under the limit is returned unchanged. -/
theorem truncateMessage_spec (content : String) :
    (content.length ≤ MAX_MESSAGE_CHARS →
      truncateMessage content MAX_MESSAGE_CHARS = content)
    ∧ (MAX_MESSAGE_CHARS < content.length →
        (truncateMessage content MAX_MESSAGE_CHARS).length
            = MAX_MESSAGE_CHARS - 100 + TRUNCATION_MARKER.length
        ∧ List.IsSuffix TRUNCATION_MARKER.data
            (truncateMessage content MAX_MESSAGE_CHARS).data
        ∧ List.IsSuffix "[Message truncated due to length...]".data
            (truncateMessage content MAX_MESSAGE_CHARS).data) := by
  constructor
  · intro h
    unfold truncateMessage
    rw [if_pos h]
  · intro h
    unfold truncateMessage
    rw [if_neg (by omega)]
    refine ⟨?_, ?_, ?_⟩
    · rw [string_length_append]
      have ht : (jsTake content (MAX_MESSAGE_CHARS - 100)).length
          = MAX_MESSAGE_CHARS - 100 := by
        unfold jsTake
        rw [string_length_mk, List.length_take]
        have hd : content.data.length = content.length := rfl
        unfold MAX_MESSAGE_CHARS at h ⊢
        omega
      omega
    · exact ⟨(jsTake content (MAX_MESSAGE_CHARS - 100)).data,
        (string_data_append _ _).symm⟩
    · refine List.IsSuffix.trans ⟨"\n\n".data, rfl⟩
        ⟨(jsTake content (MAX_MESSAGE_CHARS - 100)).data,
          (string_data_append _ _).symm⟩

/-- Witness for C8 at a concrete 32001-character content. -/
theorem truncateMessage_spec_witness :
    MAX_MESSAGE_CHARS < (String.mk (List.replicate 32001 'a')).length
    ∧ ((truncateMessage (String.mk (List.replicate 32001 'a')) MAX_MESSAGE_CHARS).length
        = MAX_MESSAGE_CHARS - 100 + TRUNCATION_MARKER.length
      ∧ List.IsSuffix TRUNCATION_MARKER.data
          (truncateMessage (String.mk (List.replicate 32001 'a')) MAX_MESSAGE_CHARS).data
      ∧ List.IsSuffix "[Message truncated due to length...]".data
          (truncateMessage (String.mk (List.replicate 32001 'a')) MAX_MESSAGE_CHARS).data) := by
  have h : MAX_MESSAGE_CHARS < (String.mk (List.replicate 32001 'a')).length := by
    rw [string_length_mk, List.length_replicate]
    decide
  exact ⟨h, (truncateMessage_spec _).2 h⟩

/-- Claim C9 (amended): validateUserInput returns invalid exactly when the
trimmed content is empty (the content was empty or whitespace-only) or the
trimmed content exceeds MAX_MESSAGE_CHARS; in particular no suspicious
pattern ever invalidates an input, since validity depends only on the trimmed
length. -/
theorem validateUserInput_invalid_iff (content : String) :
    (validateUserInput content).valid = false
      ↔ ((jsTrim content).length = 0
          ∨ (jsTrim content).length > MAX_MESSAGE_CHARS) := by
  unfold validateUserInput
  by_cases h0 : content = ""
  · rw [if_pos h0]
    subst h0
    exact ⟨fun _ => Or.inl rfl, fun _ => rfl⟩
  · rw [if_neg h0]
    by_cases h1 : (jsTrim content).length = 0
    · rw [if_pos h1]
      exact ⟨fun _ => Or.inl h1, fun _ => rfl⟩
    · rw [if_neg h1]
      by_cases h2 : (jsTrim content).length > MAX_MESSAGE_CHARS
      · rw [if_pos h2]
        exact ⟨fun _ => Or.inr h2, fun _ => rfl⟩
      · rw [if_neg h2]
        constructor
        · intro hv
          exact absurd hv (by simp)
        · intro hr
          rcases hr with hr | hr
          · exact absurd hr h1
          · exact absurd hr h2

/-- Witness for C9: the empty input is rejected. -/
theorem validateUserInput_invalid_iff_witness :
    (validateUserInput "").valid = false :=
  (validateUserInput_invalid_iff "").mpr (Or.inl rfl)

/-- Claim C9 counterexample: a 32002-character content (two leading spaces
followed by 32000 letters) exceeds MAX_MESSAGE_CHARS yet is accepted, because
the source checks the length of the trimmed content only. -/
theorem validateUserInput_untrimmed_counterexample :
    MAX_MESSAGE_CHARS < (String.mk (' ' :: ' ' :: List.replicate 32000 'a')).length
    ∧ (validateUserInput (String.mk (' ' :: ' ' :: List.replicate 32000 'a'))).valid
        = true := by
  have h1 : (' ' :: ' ' :: List.replicate 32000 'a').dropWhile jsIsWhitespace
      = List.replicate 32000 'a' := by
    rw [List.dropWhile_cons_of_pos (by rfl), List.dropWhile_cons_of_pos (by rfl)]
    exact dropWhile_replicate_of_false _ _ _ (by rfl)
  have htrim : jsTrim (String.mk (' ' :: ' ' :: List.replicate 32000 'a'))
      = String.mk (List.replicate 32000 'a') := by
    unfold jsTrim
    refine congrArg String.mk ?_
    rw [show (String.mk (' ' :: ' ' :: List.replicate 32000 'a')).data
        = ' ' :: ' ' :: List.replicate 32000 'a' from rfl]
    rw [h1, List.reverse_replicate,
      dropWhile_replicate_of_false _ _ _ (by rfl), List.reverse_replicate]
  have hlen : (jsTrim (String.mk (' ' :: ' ' :: List.replicate 32000 'a'))).length
      = 32000 := by
    rw [htrim, string_length_mk, List.length_replicate]
  have hne : String.mk (' ' :: ' ' :: List.replicate 32000 'a') ≠ "" := by
    intro hc
    have hdata : (' ' :: ' ' :: List.replicate 32000 'a') = ([] : List Char) :=
      congrArg String.data hc
    exact List.cons_ne_nil _ _ hdata
  constructor
  · rw [string_length_mk, List.length_cons, List.length_cons, List.length_replicate]
    unfold MAX_MESSAGE_CHARS
    omega
  · unfold validateUserInput
    rw [if_neg hne, if_neg (by rw [hlen]; omega),
      if_neg (by rw [hlen]; unfold MAX_MESSAGE_CHARS; omega)]

/-- Claim C7: the three-delta upstream scenario produces the three Token
events in order followed by a single Done event aggregating content and
usage. -/
theorem streaming_scenario_events :
    createStreamingCompletionEvents true "upstream"
      [UpstreamLine.dataFrame ⟨some "Hel", none⟩,
       UpstreamLine.dataFrame ⟨some "lo", none⟩,
       UpstreamLine.dataFrame ⟨some "!", none⟩,
       UpstreamLine.dataFrame ⟨none, some ⟨some 10, some 3, none⟩⟩,
       UpstreamLine.doneSentinel]
      = [StreamEvent.token "Hel", StreamEvent.token "lo", StreamEvent.token "!",
         StreamEvent.done "Hello!" ⟨10, 3, 13⟩] := by
  decide

/-- Claim C3 (code bug): the ternary on the caller-supplied signal passes the
internal controller signal in both branches, so the caller-supplied
cancellation firing alone never aborts the upstream call, while the timeout
and the stream cancel callback do. -/
theorem caller_signal_not_composed :
    upstreamCallAborted (some ()) true false false = false
    ∧ upstreamCallAborted none false true false = true
    ∧ upstreamCallAborted (some ()) false false true = true := by
  decide

/-- Claim C2: in both chat route handlers, whenever startRequest ran (the
request was admitted and reached the streaming step), the finally block runs
endRequest exactly once, on every exit path: returning the stream, an
exception after admission (catch arm), or any later failure; persistence
exceptions happen inside the callback try and cannot add or remove a call. -/
theorem endRequest_exactly_once (e1 : ChatRouteEnv) (e2 : RegenRouteEnv) :
    ((chatMessagesPOST e1).startRequestCalls = 1
      → (chatMessagesPOST e1).endRequestCalls = 1)
    ∧ ((regeneratePOST e2).startRequestCalls = 1
      → (regeneratePOST e2).endRequestCalls = 1) := by
  constructor
  · intro h
    by_cases ha : e1.authThrows
    · simp [chatMessagesPOST, ha] at h
    · cases hauth : e1.auth with
      | none => simp [chatMessagesPOST, ha, hauth] at h
      | some p =>
        obtain ⟨u, r⟩ := p
        simp [chatMessagesPOST, ha, hauth]
  · intro h
    by_cases ha : e2.authThrows
    · simp [regeneratePOST, ha] at h
    · cases hauth : e2.auth with
      | none => simp [regeneratePOST, ha, hauth] at h
      | some p =>
        obtain ⟨u, r⟩ := p
        simp [regeneratePOST, ha, hauth]

/-- A concrete fully-successful chat messages route environment. -/
def sampleChatEnv : ChatRouteEnv :=
  ⟨false, some ("u", "user"), false, "hello", "c1", false, false, true, false,
   false, 0, ⟨fun _ => [], fun _ => 0⟩, 0, false, true, false, false, false⟩

/-- A concrete fully-successful regenerate route environment. -/
def sampleRegenEnv : RegenRouteEnv :=
  ⟨false, some ("u", "user"), false, "c1", false, false, true, false, false, 0,
   ⟨fun _ => [], fun _ => 0⟩, 0, false, true, false, true, false, false, 2, false⟩

/-- Witness for C2 at concrete admitted requests on both routes. -/
theorem endRequest_exactly_once_witness :
    (chatMessagesPOST sampleChatEnv).startRequestCalls = 1
    ∧ (chatMessagesPOST sampleChatEnv).endRequestCalls = 1
    ∧ (regeneratePOST sampleRegenEnv).startRequestCalls = 1
    ∧ (regeneratePOST sampleRegenEnv).endRequestCalls = 1 :=
  ⟨by decide, (endRequest_exactly_once sampleChatEnv sampleRegenEnv).1 (by decide),
   by decide, (endRequest_exactly_once sampleChatEnv sampleRegenEnv).2 (by decide)⟩

/-- Claim C5: with the sliding-window count and the daily tokens below the
tier limits, after starting maxConcurrentRequests requests without ending
any, the next checkAIRateLimit call for that user denies with the concurrency
reason specifically (not the rate or quota reasons) and carries no retryAfter
hint. -/
theorem concurrency_cap_denial (st : AIRateLimitState) (userId userRole : String)
    (now dailyTokens : Nat)
    (hrate : ((st.rateLimitStore (getRateLimitKey userId "ai-chat")).filter
        (fun t => decide (now < t + MESSAGE_RATE_LIMIT_windowMs))).length
      < ((AI_RATE_LIMITS_lookup userRole).getD AI_RATE_LIMITS_user).messagesPerHour)
    (hquota : dailyTokens
      < ((AI_RATE_LIMITS_lookup userRole).getD AI_RATE_LIMITS_user).dailyTokenLimit)
    (hzero : st.concurrentRequests userId = 0) :
    (checkAIRateLimit now userId userRole dailyTokens
        ((startRequest userId)^[((AI_RATE_LIMITS_lookup userRole).getD
            AI_RATE_LIMITS_user).maxConcurrentRequests] st)).1
      = ⟨false,
          some "Too many concurrent requests. Please wait for current requests to complete.",
          none, none⟩ := by
  have hstore := iterate_startRequest_store userId
    ((AI_RATE_LIMITS_lookup userRole).getD AI_RATE_LIMITS_user).maxConcurrentRequests st
  have hcount := iterate_startRequest_count userId
    ((AI_RATE_LIMITS_lookup userRole).getD AI_RATE_LIMITS_user).maxConcurrentRequests st
  simp only [checkAIRateLimit, checkRateLimit, hstore]
  rw [if_neg (Nat.not_le.mpr hrate)]
  rw [if_neg (by simp)]
  rw [if_neg (Nat.not_le.mpr hquota)]
  rw [hcount, hzero]
  rw [if_pos (by omega)]

/-- Witness for C5: a fresh user of the user tier who has started two
requests is denied by the concurrency check. -/
theorem concurrency_cap_denial_witness :
    (((⟨fun _ => [], fun _ => 0⟩ : AIRateLimitState).rateLimitStore
        (getRateLimitKey "u" "ai-chat")).filter
        (fun t => decide ((0:Nat) < t + MESSAGE_RATE_LIMIT_windowMs))).length
      < ((AI_RATE_LIMITS_lookup "user").getD AI_RATE_LIMITS_user).messagesPerHour
    ∧ (0:Nat) < ((AI_RATE_LIMITS_lookup "user").getD AI_RATE_LIMITS_user).dailyTokenLimit
    ∧ (⟨fun _ => [], fun _ => 0⟩ : AIRateLimitState).concurrentRequests "u" = 0
    ∧ (checkAIRateLimit 0 "u" "user" 0
        ((startRequest "u")^[((AI_RATE_LIMITS_lookup "user").getD
            AI_RATE_LIMITS_user).maxConcurrentRequests]
          (⟨fun _ => [], fun _ => 0⟩ : AIRateLimitState))).1
      = ⟨false,
          some "Too many concurrent requests. Please wait for current requests to complete.",
          none, none⟩ :=
  ⟨by decide, by decide, rfl,
   concurrency_cap_denial ⟨fun _ => [], fun _ => 0⟩ "u" "user" 0 0
     (by decide) (by decide) rfl⟩

/-- Claim C10: every Done event the relay emits on the success path carries a
usage whose total is the sum of its input and output counters, and those
counters are the last prompt and completion counts captured from the upstream
lines (zero when never reported); the upstream-reported total is never
used. -/
theorem done_event_usage (lines : List UpstreamLine) (errMsg c : String)
    (u : TokenUsage)
    (h : StreamEvent.done c u ∈ createStreamingCompletionEvents true errMsg lines) :
    u.totalTokens = u.inputTokens + u.outputTokens
    ∧ (u.inputTokens, u.outputTokens) = lastReportedUsage lines := by
  unfold createStreamingCompletionEvents at h
  rw [if_pos rfl] at h
  rcases List.mem_append.mp h with h1 | h2
  · obtain ⟨t, ht⟩ := relayLoop_tokens_only lines "" 0 0 _ h1
    exact absurd ht (by simp)
  · have he := List.mem_singleton.mp h2
    injection he with hc hu
    subst hu
    refine ⟨rfl, ?_⟩
    show ((relayLoop lines "" 0 0).2.2.1, (relayLoop lines "" 0 0).2.2.2)
      = lastReportedUsage lines
    rw [relayLoop_usage]
    exact Prod.mk.eta

/-- Witness for C10 at a concrete stream whose usage frame carries a bogus
upstream total of 999, which the relay ignores. -/
theorem done_event_usage_witness :
    StreamEvent.done "Hello!" ⟨10, 3, 13⟩ ∈ createStreamingCompletionEvents true "x"
      [UpstreamLine.dataFrame ⟨some "Hel", none⟩,
       UpstreamLine.dataFrame ⟨some "lo", none⟩,
       UpstreamLine.dataFrame ⟨some "!", none⟩,
       UpstreamLine.dataFrame ⟨none, some ⟨some 10, some 3, some 999⟩⟩,
       UpstreamLine.doneSentinel]
    ∧ ((⟨10, 3, 13⟩ : TokenUsage).totalTokens
          = (⟨10, 3, 13⟩ : TokenUsage).inputTokens
            + (⟨10, 3, 13⟩ : TokenUsage).outputTokens
      ∧ ((⟨10, 3, 13⟩ : TokenUsage).inputTokens,
          (⟨10, 3, 13⟩ : TokenUsage).outputTokens)
          = lastReportedUsage
              [UpstreamLine.dataFrame ⟨some "Hel", none⟩,
               UpstreamLine.dataFrame ⟨some "lo", none⟩,
               UpstreamLine.dataFrame ⟨some "!", none⟩,
               UpstreamLine.dataFrame ⟨none, some ⟨some 10, some 3, some 999⟩⟩,
               UpstreamLine.doneSentinel]) := by
  exact ⟨by decide, done_event_usage _ "x" "Hello!" ⟨10, 3, 13⟩ (by decide)⟩

/-- Claim C1 (amended to options with maxMessages at least one and a
nonnegative maxChars): the history kept by buildContext has at most
maxMessages entries, and its total character length stays within maxChars
unless exactly one message remains, namely the per-message-truncated most
recent input message, whose length alone exceeds maxChars. -/
theorem buildContext_trimming_bound (msgs : List ChatMessage)
    (opts : ContextOptions) (hm : 1 ≤ opts.maxMessages) (hc : 0 ≤ opts.maxChars) :
    ((historyOf (buildContext msgs opts)).length : Int) ≤ opts.maxMessages
    ∧ (contentLengthSum (historyOf (buildContext msgs opts)) ≤ opts.maxChars
        ∨ ∃ m, (userAssistantMessagesOf msgs).getLast? = some m
            ∧ historyOf (buildContext msgs opts) = [m]
            ∧ opts.maxChars < (m.content.length : Int)) := by
  rw [historyOf_buildContext]
  have hsuffix : List.IsSuffix (keptMessagesOf msgs opts) (trimmedMessagesOf msgs opts) :=
    keptMessagesOf_suffix msgs opts
  constructor
  · have h1 : (keptMessagesOf msgs opts).length ≤ (trimmedMessagesOf msgs opts).length :=
      hsuffix.sublist.length_le
    have h2 : (trimmedMessagesOf msgs opts).length ≤ opts.maxMessages.toNat :=
      jsSliceFrom_neg_length_le _ _ hm
    have h3 : ((opts.maxMessages.toNat : Int)) = opts.maxMessages :=
      Int.toNat_of_nonneg (by omega)
    have h4 : ((keptMessagesOf msgs opts).length : Int) ≤ (opts.maxMessages.toNat : Int) := by
      exact_mod_cast le_trans h1 h2
    omega
  · have hbase : (0:Int) ≤ (if opts.includeSystemPrompt
        then ((getSystemPromptContent opts.systemPromptVersion).length : Int)
        else 0) := by
      split
      · exact Int.ofNat_nonneg _
      · exact le_refl 0
    have hchars : (budgetResultOf msgs opts).2.1
        = (if opts.includeSystemPrompt
            then ((getSystemPromptContent opts.systemPromptVersion).length : Int)
            else 0)
          + contentLengthSum (keptMessagesOf msgs opts) :=
      dropWhileOverBudget_chars _ _ _ _ _ rfl
    have hexit : (keptMessagesOf msgs opts).length ≤ 1
        ∨ (budgetResultOf msgs opts).2.1 ≤ opts.maxChars :=
      dropWhileOverBudget_exit _ _ _ _
    rcases hexit with hlen | hle
    · cases hk : keptMessagesOf msgs opts with
      | nil =>
        left
        rw [contentLengthSum_nil]
        exact hc
      | cons m rest =>
        cases rest with
        | nil =>
          by_cases hml : (m.content.length : Int) ≤ opts.maxChars
          · left
            rw [contentLengthSum_cons, contentLengthSum_nil]
            omega
          · right
            refine ⟨m, ?_, rfl, by omega⟩
            have hne : keptMessagesOf msgs opts ≠ [] := by
              rw [hk]; exact List.cons_ne_nil _ _
            have hne2 : trimmedMessagesOf msgs opts ≠ [] :=
              isSuffix_ne_nil hsuffix hne
            have e1 : (trimmedMessagesOf msgs opts).getLast?
                = (keptMessagesOf msgs opts).getLast? :=
              isSuffix_getLastQ hsuffix hne
            have e2 : (userAssistantMessagesOf msgs).getLast?
                = (trimmedMessagesOf msgs opts).getLast? :=
              isSuffix_getLastQ (jsSliceFrom_suffix _ _) hne2
            rw [e2, e1, hk]
            rfl
        | cons m2 rest2 =>
          rw [hk, List.length_cons, List.length_cons] at hlen
          omega
    · left
      have hnn : 0 ≤ contentLengthSum (keptMessagesOf msgs opts) :=
        contentLengthSum_nonneg _
      omega

/-- Witness for C1 at the default options and a one-message history. -/
theorem buildContext_trimming_bound_witness :
    (1:Int) ≤ (⟨15, 80000, "1.1.0", true⟩ : ContextOptions).maxMessages
    ∧ (0:Int) ≤ (⟨15, 80000, "1.1.0", true⟩ : ContextOptions).maxChars
    ∧ (((historyOf (buildContext [⟨MessageRole.user, "hi"⟩]
            ⟨15, 80000, "1.1.0", true⟩)).length : Int)
          ≤ (⟨15, 80000, "1.1.0", true⟩ : ContextOptions).maxMessages
      ∧ (contentLengthSum (historyOf (buildContext [⟨MessageRole.user, "hi"⟩]
              ⟨15, 80000, "1.1.0", true⟩))
            ≤ (⟨15, 80000, "1.1.0", true⟩ : ContextOptions).maxChars
          ∨ ∃ m, (userAssistantMessagesOf [⟨MessageRole.user, "hi"⟩]).getLast? = some m
              ∧ historyOf (buildContext [⟨MessageRole.user, "hi"⟩]
                  ⟨15, 80000, "1.1.0", true⟩) = [m]
              ∧ (⟨15, 80000, "1.1.0", true⟩ : ContextOptions).maxChars
                  < (m.content.length : Int))) :=
  ⟨by decide, by decide,
   buildContext_trimming_bound _ _ (by decide) (by decide)⟩

/-- Claim C1 counterexample: with maxMessages zero one history message is
still kept (slice(-0) is slice(0) and keeps everything), violating the
claimed length bound; and with an empty input and a negative maxChars the
kept history is empty, so the total exceeds maxChars while no single kept
most-recent message exists. -/
theorem buildContext_trimming_counterexample :
    ¬ (((historyOf (buildContext [⟨MessageRole.user, "hi"⟩]
          ⟨0, 80000, "1.1.0", true⟩)).length : Int)
        ≤ (⟨0, 80000, "1.1.0", true⟩ : ContextOptions).maxMessages)
    ∧ ¬ (contentLengthSum (historyOf (buildContext ([] : List ChatMessage)
          ⟨1, -1, "1.1.0", true⟩))
        ≤ (⟨1, -1, "1.1.0", true⟩ : ContextOptions).maxChars)
    ∧ historyOf (buildContext ([] : List ChatMessage) ⟨1, -1, "1.1.0", true⟩) = [] := by
  refine ⟨by decide, by decide, by decide⟩

/-- Claim C6 (corrected): buildContext with nonpositive maxMessages does not
crash (the embedding is a total function), but it does not degenerate to the
system prompt alone: the kept history is a suffix of the filtered truncated
input, and with maxMessages exactly zero a nonempty input keeps at least one
message, because slice(-0) is slice(0) and keeps the whole array. -/
theorem buildContext_nonpos_maxMessages (msgs : List ChatMessage)
    (opts : ContextOptions) (h : opts.maxMessages ≤ 0) :
    List.IsSuffix (historyOf (buildContext msgs opts)) (userAssistantMessagesOf msgs)
    ∧ (opts.maxMessages = 0 → userAssistantMessagesOf msgs ≠ []
        → historyOf (buildContext msgs opts) ≠ []) := by
  rw [historyOf_buildContext]
  refine ⟨keptMessagesOf_suffix_ua msgs opts, ?_⟩
  intro h0 hne
  have htm : trimmedMessagesOf msgs opts = userAssistantMessagesOf msgs := by
    unfold trimmedMessagesOf
    rw [h0]
    exact jsSliceFrom_zero _
  show (budgetResultOf msgs opts).1 ≠ []
  unfold budgetResultOf
  rw [htm]
  exact dropWhileOverBudget_ne_nil _ _ _ _ hne

/-- Witness for C6 at maxMessages zero with a one-message input. -/
theorem buildContext_nonpos_maxMessages_witness :
    (⟨0, 80000, "1.1.0", true⟩ : ContextOptions).maxMessages ≤ 0
    ∧ List.IsSuffix (historyOf (buildContext [⟨MessageRole.user, "hi"⟩]
        ⟨0, 80000, "1.1.0", true⟩))
        (userAssistantMessagesOf [⟨MessageRole.user, "hi"⟩])
    ∧ historyOf (buildContext [⟨MessageRole.user, "hi"⟩]
        ⟨0, 80000, "1.1.0", true⟩) ≠ [] :=
  ⟨by decide,
   (buildContext_nonpos_maxMessages _ _ (by decide)).1,
   (buildContext_nonpos_maxMessages _ _ (by decide)).2 rfl (by decide)⟩

/-- Claim C6 counterexample: with maxMessages zero the history message still
appears in the result, so the result is not the system prompt plus
nothing. -/
theorem buildContext_nonpos_counterexample :
    ⟨MessageRole.user, "hi"⟩ ∈ (buildContext [⟨MessageRole.user, "hi"⟩]
      ⟨0, 80000, "1.1.0", true⟩).messages := by
  decide
